import Mathlib

/-!
Verification of the quant-bot trading core against its specification.

This file shallowly embeds the position lifecycle manager
(`backend/active-positions/position_manager.py`), the risk engine
(`backend/risk_management/risk_engine.py`) and the signal aggregator
(`backend/signal_feed/signal_aggregator.py`) of the repository, and
proves or refutes the spec claims about them.

Python floats are modelled as rationals (`ℚ`); the exact threshold
comparisons and arithmetic identities at issue are unaffected by this
idealisation.  External collaborators (Jupiter price feed, swap
execution, wallet balance queries) are modelled as explicit environment
records holding the responses the code would receive.
-/

namespace QuantBot

/-- Association-list lookup, modelling Python `dict.get(k)` /
`k in d` with insertion-ordered dicts. -/
def lookup? {α : Type} (l : List (String × α)) (k : String) : Option α :=
  (l.find? (fun p => p.1 == k)).map (fun p => p.2)

/-- Association-list lookup with default, modelling `dict.get(k, d)`. -/
def lookupD {α : Type} (l : List (String × α)) (k : String) (d : α) : α :=
  (lookup? l k).getD d

/-- `d[k] = v` on an insertion-ordered dict: overwrite in place if the
key exists, otherwise append. -/
def listSet {α : Type} (l : List (String × α)) (k : String) (v : α) :
    List (String × α) :=
  if (l.find? (fun p => p.1 == k)).isSome then
    l.map (fun p => if p.1 == k then (k, v) else p)
  else l ++ [(k, v)]

/-- `del d[k]` on an insertion-ordered dict. -/
def eraseKey {α : Type} (l : List (String × α)) (k : String) :
    List (String × α) :=
  l.filter (fun p => ¬ p.1 == k)

/-! ## Position manager (`position_manager.py`) -/

/-- `PositionStatus` enum. -/
inductive PositionStatus
  | active
  | closed
  | monitoring
  | tp_ready
  deriving DecidableEq, Repr

/-- `RealPosition` dataclass (timestamps and display-only fields
dropped). -/
structure RealPosition where
  id : String
  token : String
  token_mint : String
  entry_price : ℚ
  size_sol : ℚ
  token_amount : ℤ
  current_price : ℚ
  market_cap : String
  pl_percent : ℚ
  pl_dollar : ℚ
  status : PositionStatus
  action_button : String
  transaction_id : String
  deriving DecidableEq, Repr

/-- `RealPositionManager` mutable state. -/
structure PMState where
  positions : List (String × RealPosition)
  wallet_balance : ℚ
  active_count : ℕ
  max_positions : ℕ
  position_counter : ℕ
  wallet_configured : Bool
  deriving DecidableEq, Repr

/-- `RealPositionManager.__init__` state. -/
def PMState.init : PMState :=
  { positions := []
    wallet_balance := 0
    active_count := 0
    max_positions := 5
    position_counter := 1
    wallet_configured := false }

/-- Result of a `trader.buy_token` / `trader.sell_token` call:
the fields of the returned dict the manager reads. -/
structure TradeResult where
  success : Bool
  output_amount : ℤ
  transaction_id : String
  error : String
  deriving DecidableEq, Repr

/-- Environment for one `_update_real_price` call: the two
`get_token_price` responses (token and SOL).  `none` models `None`. -/
structure PriceEnv where
  token_price : Option ℚ
  sol_price : Option ℚ
  deriving DecidableEq, Repr

/-- The SOL price actually used for the dollar P/L: the fetched value
when truthy (`if sol_price:` — `None` and `0.0` are falsy), otherwise
the hard-coded fallback `150`. -/
def effectiveSolPrice (sp : Option ℚ) : ℚ :=
  match sp with
  | some v => if v = 0 then 150 else v
  | none => 150

/-- `_update_real_price`: refresh `current_price`, recompute
`pl_percent` and `pl_dollar`, and set status/action button from the
P/L thresholds.  A failed or non-positive price fetch leaves the
position unchanged. -/
def update_real_price (env : PriceEnv) (p : RealPosition) : RealPosition :=
  match env.token_price with
  | some cp =>
    if 0 < cp then
      let pct := (cp - p.entry_price) / p.entry_price * 100
      let pld := p.size_sol * (pct / 100) * effectiveSolPrice env.sol_price
      if 100 < pct then
        { p with current_price := cp, pl_percent := pct, pl_dollar := pld
                 action_button := "TP2", status := PositionStatus.tp_ready }
      else if 50 < pct then
        { p with current_price := cp, pl_percent := pct, pl_dollar := pld
                 action_button := "TP1", status := PositionStatus.tp_ready }
      else if pct < -50 then
        { p with current_price := cp, pl_percent := pct, pl_dollar := pld
                 action_button := "SL", status := PositionStatus.monitoring }
      else
        { p with current_price := cp, pl_percent := pct, pl_dollar := pld
                 action_button := "MON", status := PositionStatus.monitoring }
    else p
  | none => p

/-- `update_positions`: refresh every open position (all positions see
the same environment response in this model of one tick for one
token's positions). -/
def update_positions (env : PriceEnv) (s : PMState) : PMState :=
  { s with positions := s.positions.map (fun q => (q.1, update_real_price env q.2)) }

/-- Outcome of `execute_buy_trade`, one constructor per distinct
return of the Python function. -/
inductive BuyOutcome
  | walletNotConfigured
  | maxPositionsReached
  | insufficientBalance
  | priceUnavailable
  | tradeFailed (error : String)
  | opened (position_id : String) (transaction_id : String) (token_amount : ℤ)
  deriving DecidableEq, Repr

/-- Environment for one `execute_buy_trade` call: the
`get_token_price` response before the trade, the `buy_token` result,
and the `sol_balance` reported by `update_wallet_balance` afterwards
(`none` keeps the old balance, as when the fetch fails). -/
structure BuyEnv where
  entry_price : Option ℚ
  trade : TradeResult
  balance_after : Option ℚ
  deriving DecidableEq, Repr

/-- `execute_buy_trade`: guard checks in source order (wallet
configured, capacity, 80%-of-balance funds check), then price fetch
(`if not entry_price` — `None` and `0.0` both fail), then the swap;
on success the position is recorded and the wallet balance is re-read
from the chain. -/
def execute_buy_trade (s : PMState) (env : BuyEnv)
    (token_mint token_symbol : String) (sol_amount : ℚ)
    (market_cap : String) : BuyOutcome × PMState :=
  if s.wallet_configured = false then (BuyOutcome.walletNotConfigured, s)
  else if s.max_positions ≤ s.active_count then (BuyOutcome.maxPositionsReached, s)
  else if s.wallet_balance * (8/10) < sol_amount then (BuyOutcome.insufficientBalance, s)
  else
    match env.entry_price with
    | none => (BuyOutcome.priceUnavailable, s)
    | some ep =>
      if ep = 0 then (BuyOutcome.priceUnavailable, s)
      else if env.trade.success = false then (BuyOutcome.tradeFailed env.trade.error, s)
      else
        let pid := "pos_" ++ toString s.position_counter
        let pos : RealPosition :=
          { id := pid
            token := token_symbol
            token_mint := token_mint
            entry_price := ep
            size_sol := sol_amount
            token_amount := env.trade.output_amount
            current_price := ep
            market_cap := market_cap
            pl_percent := 0
            pl_dollar := 0
            status := PositionStatus.active
            action_button := "MON"
            transaction_id := env.trade.transaction_id }
        let positions := listSet s.positions pid pos
        (BuyOutcome.opened pid env.trade.transaction_id env.trade.output_amount,
          { s with positions := positions
                   active_count := positions.length
                   position_counter := s.position_counter + 1
                   wallet_balance := env.balance_after.getD s.wallet_balance })

/-- Python `int()` truncation toward zero on a rational. -/
def ratTrunc (q : ℚ) : ℤ := if 0 ≤ q then ⌊q⌋ else ⌈q⌉

/-- Outcome of `execute_sell_trade`.  `final_pl` is the realized P/L
the code computes (`position.pl_dollar`) when the position is fully
closed, `none` on a partial sell. -/
inductive SellOutcome
  | positionNotFound
  | tradeFailed (error : String)
  | sold (tokens_sold : ℤ) (final_pl : Option ℚ)
  deriving DecidableEq, Repr

/-- Environment for one `execute_sell_trade` call. -/
structure SellEnv where
  trade : TradeResult
  balance_after : Option ℚ
  deriving DecidableEq, Repr

/-- `execute_sell_trade`: unknown id is rejected; after a successful
swap, a sell of ≥100% removes the position (realizing its stored
`pl_dollar`), a partial sell scales `token_amount` and `size_sol`
down; the wallet balance is then re-read from the chain. -/
def execute_sell_trade (s : PMState) (env : SellEnv)
    (position_id : String) (sell_percentage : ℚ) : SellOutcome × PMState :=
  match lookup? s.positions position_id with
  | none => (SellOutcome.positionNotFound, s)
  | some pos =>
    let tokens_to_sell := ratTrunc ((pos.token_amount : ℚ) * (sell_percentage / 100))
    if env.trade.success = false then (SellOutcome.tradeFailed env.trade.error, s)
    else if 100 ≤ sell_percentage then
      let positions := eraseKey s.positions position_id
      (SellOutcome.sold tokens_to_sell (some pos.pl_dollar),
        { s with positions := positions
                 active_count := positions.length
                 wallet_balance := env.balance_after.getD s.wallet_balance })
    else
      let pos' := { pos with
        token_amount := ratTrunc ((pos.token_amount : ℚ) * (1 - sell_percentage / 100))
        size_sol := pos.size_sol * (1 - sell_percentage / 100) }
      (SellOutcome.sold tokens_to_sell none,
        { s with positions := listSet s.positions position_id pos'
                 wallet_balance := env.balance_after.getD s.wallet_balance })

/-- Exit-action type proposed by `check_exit_conditions`. -/
inductive ExitType
  | take_profit
  | stop_loss
  deriving DecidableEq, Repr

/-- `check_exit_conditions`: propose TAKE_PROFIT above +150% and
(else-branch) STOP_LOSS below −30%, per open position, without
executing anything. -/
def check_exit_conditions (s : PMState) : List (ExitType × String) :=
  s.positions.filterMap (fun q =>
    if 150 < q.2.pl_percent then some (ExitType.take_profit, q.1)
    else if q.2.pl_percent < -30 then some (ExitType.stop_loss, q.1)
    else none)

/-- `get_metrics` fields the risk engine reads: total P/L and wallet
balance. -/
def pm_total_pl (s : PMState) : ℚ :=
  (s.positions.map (fun q => q.2.pl_dollar)).sum

/-! ## Risk engine (`risk_engine.py`) -/

/-- The reason carried by `check_emergency_exit_conditions`, one
constructor per f-string reason, carrying the interpolated value. -/
inductive EmergencyReason
  | portfolioRiskCritical (risk : ℚ)
  | portfolioExposureCritical (exposure : ℚ)
  | criticalPortfolioDrawdown (pl_percent : ℚ)
  | extremeMarketVolatility (avg_volatility : ℚ)
  | rapidPortfolioDecline (decline : ℚ)
  deriving DecidableEq, Repr

/-- `RiskEngine` state: the risk metrics the emergency check reads,
the emergency-stop flag and reason history, and the thresholds set up
in `__init__` (`portfolio_drawdown` comes from
`real_trading_config.EMERGENCY_EXIT_THRESHOLD`, default −50;
`max_risk_level` 70, `max_exposure` 90, `rapid_value_decline` 25).
`position_manager` presence is modelled as an optional `PMState`
snapshot; `rapid_value_decline` is an attribute never set in
`__init__` (`hasattr` guard), hence an `Option`. -/
structure RiskState where
  portfolio_risk : ℚ
  exposure_pct : ℚ
  volatility_metrics : List (String × ℚ)
  emergency_stop_triggered : Bool
  emergency_stop_reasons : List String
  thr_portfolio_drawdown : ℚ
  thr_max_risk_level : ℚ
  thr_max_exposure : ℚ
  thr_rapid_value_decline : ℚ
  position_manager : Option PMState
  rapid_value_decline : Option ℚ
  deriving DecidableEq, Repr

/-- `RiskEngine.__init__` state, with the configured drawdown
threshold as parameter. -/
def RiskState.init (emergency_exit_threshold : ℚ) : RiskState :=
  { portfolio_risk := 234/10
    exposure_pct := 678/10
    volatility_metrics := []
    emergency_stop_triggered := false
    emergency_stop_reasons := []
    thr_portfolio_drawdown := emergency_exit_threshold
    thr_max_risk_level := 70
    thr_max_exposure := 90
    thr_rapid_value_decline := 25
    position_manager := none
    rapid_value_decline := none }

/-- The result record of `check_emergency_exit_conditions`. -/
structure EmergencyCheck where
  emergency_exit : Bool
  reason : Option EmergencyReason
  severity : String
  deriving DecidableEq, Repr

/-- Average portfolio volatility:
`sum(values) / max(len(values), 1)`. -/
def avgVolatility (s : RiskState) : ℚ :=
  (s.volatility_metrics.map (fun p => p.2)).sum / (max s.volatility_metrics.length 1 : ℕ)

/-- The portfolio-drawdown condition (c): position manager present,
positive wallet balance, and total P/L relative to balance below the
drawdown threshold. -/
def drawdownCond (s : RiskState) : Bool :=
  match s.position_manager with
  | some pm => decide (0 < pm.wallet_balance) &&
      decide (pm_total_pl pm / pm.wallet_balance * 100 < s.thr_portfolio_drawdown)
  | none => false

/-- The rapid-value-decline condition (e): the attribute exists and
exceeds its threshold. -/
def rapidDeclineCond (s : RiskState) : Bool :=
  match s.rapid_value_decline with
  | some d => decide (s.thr_rapid_value_decline < d)
  | none => false

/-- `check_emergency_exit_conditions`: five independent `if`s each
overwrite the result record, then the internal emergency flag is set
when any condition fired.  Returns the result and the (possibly
updated) state. -/
def check_emergency_exit_conditions (s : RiskState) : EmergencyCheck × RiskState :=
  let r0 : EmergencyCheck := { emergency_exit := false, reason := none, severity := "NORMAL" }
  let r1 := if s.thr_max_risk_level < s.portfolio_risk then
      { emergency_exit := true
        reason := some (EmergencyReason.portfolioRiskCritical s.portfolio_risk)
        severity := "CRITICAL" } else r0
  let r2 := if s.thr_max_exposure < s.exposure_pct then
      { emergency_exit := true
        reason := some (EmergencyReason.portfolioExposureCritical s.exposure_pct)
        severity := "CRITICAL" } else r1
  let r3 :=
    match s.position_manager with
    | some pm =>
      if 0 < pm.wallet_balance then
        if pm_total_pl pm / pm.wallet_balance * 100 < s.thr_portfolio_drawdown then
          { emergency_exit := true
            reason := some (EmergencyReason.criticalPortfolioDrawdown
              (pm_total_pl pm / pm.wallet_balance * 100))
            severity := "CRITICAL" }
        else r2
      else r2
    | none => r2
  let r4 := if 80 < avgVolatility s then
      { emergency_exit := true
        reason := some (EmergencyReason.extremeMarketVolatility (avgVolatility s))
        severity := "HIGH" } else r3
  let r5 :=
    match s.rapid_value_decline with
    | some d =>
      if s.thr_rapid_value_decline < d then
        { emergency_exit := true
          reason := some (EmergencyReason.rapidPortfolioDecline d)
          severity := "CRITICAL" }
      else r4
    | none => r4
  let s' := if r5.emergency_exit && !s.emergency_stop_triggered then
      { s with emergency_stop_triggered := true } else s
  (r5, s')

/-- `trigger_emergency_stop`: idempotent — if already triggered just
record the reason and return `false`; otherwise set the flag, record
the reason and (when present) run the position manager's
`emergency_exit_all`.  The liquidation environment is one `SellEnv`
per open position, consumed in order; the flag stays set regardless
of liquidation outcome. -/
def trigger_emergency_stop (s : RiskState) (reason : String)
    (liquidation_env : List SellEnv) : Bool × RiskState :=
  if s.emergency_stop_triggered then
    (false, { s with emergency_stop_reasons := s.emergency_stop_reasons ++ [reason] })
  else
    let s := { s with emergency_stop_triggered := true
                      emergency_stop_reasons := s.emergency_stop_reasons ++ [reason] }
    match s.position_manager with
    | some pm =>
      let keys := pm.positions.map (fun q => q.1)
      let pm' := (keys.zip (liquidation_env.take keys.length)).foldl
        (fun acc ke => (execute_sell_trade acc ke.2 ke.1 100).2) pm
      (true, { s with position_manager := some pm' })
    | none => (false, s)

/-- `reset_emergency_stop`: no-op returning `false` when no emergency
is active, otherwise clears the flag and returns `true`. -/
def reset_emergency_stop (s : RiskState) : Bool × RiskState :=
  if s.emergency_stop_triggered = false then (false, s)
  else (true, { s with emergency_stop_triggered := false })

/-- Market-cap field of a token dict as seen by
`evaluate_token_risk`: absent (default string `"$100K"`, i.e. value
100000), parsing to a value, or raising `ValueError`/`TypeError`. -/
inductive MarketCapField
  | missing
  | parsed (value : ℚ)
  | unparsable
  deriving DecidableEq, Repr

/-- The parsed market-cap value, `none` on a parse failure. -/
def mcValue? : MarketCapField → Option ℚ
  | MarketCapField.missing => some 100000
  | MarketCapField.parsed v => some v
  | MarketCapField.unparsable => none

/-- Token-metrics dict consumed by `evaluate_token_risk`; `none`
models an absent key. -/
structure TokenMetrics where
  liquidity : Option ℚ
  market_cap : MarketCapField
  holders : Option ℚ
  volatility : Option ℚ
  age_days : Option ℚ
  symbol : Option String
  deriving DecidableEq, Repr

/-- The market-cap penalty of `evaluate_token_risk`: +0.2 below
$50K or on a parse failure, +0.1 below $250K. -/
def mcPenalty (mc : MarketCapField) : ℚ :=
  match mcValue? mc with
  | some v => if v < 50000 then 2/10 else if v < 250000 then 1/10 else 0
  | none => 2/10

/-- The volatility used by `evaluate_token_risk`: the token's own
field when truthy (`if not volatility:` — `None` and `0` are falsy),
otherwise the engine's per-token volatility metric, default 50. -/
def effVolatility (s : RiskState) (t : TokenMetrics) : ℚ :=
  match t.volatility with
  | some v => if v = 0 then lookupD s.volatility_metrics (t.symbol.getD "UNKNOWN") 50 else v
  | none => lookupD s.volatility_metrics (t.symbol.getD "UNKNOWN") 50

/-- `evaluate_token_risk`: base risk 0.3 plus fixed penalties for low
liquidity, small/unparsable market cap, few holders, high volatility
and young age, capped at 1.0. -/
def evaluate_token_risk (s : RiskState) (t : TokenMetrics) : ℚ :=
  let base : ℚ := 3/10
  let liquidity := t.liquidity.getD 0
  let liq_pen : ℚ := if liquidity < 5000 then 3/10 else if liquidity < 10000 then 2/10 else 0
  let mc_pen : ℚ := mcPenalty t.market_cap
  let holders := t.holders.getD 100
  let hold_pen : ℚ := if holders < 50 then 15/100 else if holders < 200 then 1/10 else 0
  let vol := effVolatility s t
  let vol_pen : ℚ := if 60 < vol then 25/100 else if 40 < vol then 15/100 else 0
  let age := t.age_days.getD 30
  let age_pen : ℚ := if age < 7 then 25/100 else if age < 30 then 15/100 else 0
  min 1 (base + liq_pen + mc_pen + hold_pen + vol_pen + age_pen)

/-! ## Signal aggregator (`signal_aggregator.py`)

Timestamps are rationals measured in hours; the signal expiry is the
4-hour `signal_expiry`. -/

/-- `TradingSignal` dataclass (display-only fields dropped;
`created_at` in hours). -/
structure TradingSignal where
  id : String
  type : String
  token : String
  token_mint : Option String
  source : String
  direction : String
  strength : ℚ
  confidence : ℚ
  timeframe : String
  created_at : ℚ
  deriving DecidableEq, Repr

/-- The static `signal_sources` reliability-weight table. -/
def signal_sources : List (String × ℚ) :=
  [("NEURAL_ANALYZER", 85/100),
   ("WHALE_TRACKER", 75/100),
   ("SOCIAL_SENTIMENT", 65/100),
   ("TECHNICAL_ANALYSIS", 80/100),
   ("VOLUME_SCANNER", 70/100),
   ("DEX_MONITOR", 75/100),
   ("PATTERN_RECOGNITION", 80/100),
   ("MOMENTUM_INDICATOR", 75/100),
   ("SMART_MONEY_FLOW", 85/100),
   ("FIBONACCI_LEVELS", 70/100)]

/-- Per-signal weight:
`signal_sources.get(source, 0.5) * confidence * strength`. -/
def signalWeight (s : TradingSignal) : ℚ :=
  lookupD signal_sources s.source (1/2) * s.confidence * s.strength

/-- The derived fields of an `AggregatedSignal` (the contributing
signal list and timestamps are carried by the state, not needed for
the claims). -/
structure AggValues where
  direction : String
  strength : ℚ
  confidence : ℚ
  signal_count : ℕ
  weighted_score : ℚ
  recommendation : String
  deriving DecidableEq, Repr

/-- `_generate_recommendation`. -/
def generate_recommendation (direction : String) (strength confidence : ℚ) : String :=
  if confidence < 6/10 then "MONITOR"
  else if direction = "bullish" then
    if 75/100 < strength ∧ 8/10 < confidence then "STRONG_BUY"
    else if 6/10 < strength ∧ 7/10 < confidence then "BUY"
    else "ACCUMULATE"
  else if direction = "bearish" then
    if 75/100 < strength ∧ 8/10 < confidence then "STRONG_SELL"
    else if 6/10 < strength ∧ 7/10 < confidence then "SELL"
    else "REDUCE"
  else "HOLD"

/-- Python `str.lower()` (character-wise lowering). -/
def lowerString (s : String) : String :=
  String.mk (s.data.map Char.toLower)

/-- Is this signal's direction (lower-cased, as in
`signal.direction.lower()`) the given one? -/
def hasDirection (d : String) (s : TradingSignal) : Bool :=
  lowerString s.direction == d

/-- A neutral-bucket signal: neither bullish nor bearish. -/
def isNeutralDir (s : TradingSignal) : Bool :=
  !(hasDirection "bullish" s) && !(hasDirection "bearish" s)

/-- The core recomputation of `_aggregate_signals_for_token` on the
already-filtered live signals of one token: weighted direction
buckets, net score, strength, agreement-based confidence with
single-signal penalty and multi-signal bonus, and recommendation.
Returns `none` when the function returns early (no signals, or zero
total weight). -/
def aggregateCore (sigs : List TradingSignal) : Option AggValues :=
  if sigs.isEmpty then none
  else
    let bullish_score := ((sigs.filter (hasDirection "bullish")).map signalWeight).sum
    let bearish_score := ((sigs.filter (hasDirection "bearish")).map signalWeight).sum
    let neutral_score := ((sigs.filter isNeutralDir).map signalWeight).sum
    let total_weight := bullish_score + bearish_score + neutral_score
    if total_weight = 0 then none
    else
      let net_score := (bullish_score - bearish_score) / total_weight
      let direction :=
        if 1/5 < net_score then "bullish"
        else if net_score < -(1/5) then "bearish"
        else "neutral"
      let strength := |net_score| * (7/10) +
        max bullish_score bearish_score / total_weight * (3/10)
      let max_signal_count : ℕ := max 1 sigs.length
      let bullish_count := (sigs.filter (hasDirection "bullish")).length
      let bearish_count := (sigs.filter (hasDirection "bearish")).length
      let confidence0 : ℚ :=
        if bearish_count * 2 < bullish_count then
          7/10 + (3/10) * ((bullish_count : ℚ) / (max_signal_count : ℚ))
        else if bullish_count * 2 < bearish_count then
          7/10 + (3/10) * ((bearish_count : ℚ) / (max_signal_count : ℚ))
        else
          1/2 + (1/5) * ((max bullish_count bearish_count : ℚ) / (max_signal_count : ℚ))
      let confidence : ℚ :=
        if sigs.length = 1 then confidence0 * (8/10)
        else if 3 ≤ sigs.length then min (95/100) (confidence0 * (11/10))
        else confidence0
      some
        { direction := direction
          strength := strength
          confidence := confidence
          signal_count := sigs.length
          weighted_score := net_score
          recommendation := generate_recommendation direction strength confidence }

/-- The live (non-expired) signals of a token at time `now`:
`s.token == token and s.created_at > now - signal_expiry` with the
4-hour expiry. -/
def liveSignals (now : ℚ) (pool : List TradingSignal) (token : String) :
    List TradingSignal :=
  pool.filter (fun s => s.token == token && decide (now - 4 < s.created_at))

/-- `_aggregate_signals_for_token` as a function of the signal pool:
the recomputed aggregate for `token`, or `none` on early return. -/
def aggregate_signals_for_token (now : ℚ) (pool : List TradingSignal)
    (token : String) : Option AggValues :=
  aggregateCore (liveSignals now pool token)

/-- `SignalAggregator` mutable state (the parts `process_signal`
touches). -/
structure AggState where
  signals : List TradingSignal
  signal_cache : List (String × List TradingSignal)
  aggregated_signals : List (String × AggValues)
  total_signals : ℕ
  high_priority : ℕ
  deriving DecidableEq, Repr

/-- `SignalAggregator.__init__` state. -/
def AggState.init : AggState :=
  { signals := []
    signal_cache := []
    aggregated_signals := []
    total_signals := 0
    high_priority := 0 }

/-- Keep the last `n` entries of a list (Python `l[-n:]`). -/
def takeLast {α : Type} (n : ℕ) (l : List α) : List α :=
  l.drop (l.length - n)

/-- `process_signal`: build the signal from the payload, append it to
the pool unconditionally (no range or floor validation), trim the
pool to the 100 newest when it exceeds 100, bump the stats, append to
the per-token cache (bounded to the last 20), and recompute the
token's aggregate.  `now` is the `datetime.now()` of the call. -/
def process_signal (s : AggState) (sig : TradingSignal) (now : ℚ) : AggState :=
  let new_signal := { sig with created_at := now }
  let signals := s.signals ++ [new_signal]
  let signals :=
    if 100 < signals.length then
      (signals.mergeSort (fun a b => decide (b.created_at ≤ a.created_at))).take 100
    else signals
  let total_signals := s.total_signals + 1
  let high_priority :=
    if 8/10 ≤ new_signal.confidence then s.high_priority + 1 else s.high_priority
  let cache_entry := (lookupD s.signal_cache new_signal.token []) ++ [new_signal]
  let cache_entry :=
    if 20 < cache_entry.length then takeLast 20 cache_entry else cache_entry
  let signal_cache := listSet s.signal_cache new_signal.token cache_entry
  let live := liveSignals now signals new_signal.token
  let aggregated_signals :=
    if live.isEmpty then eraseKey s.aggregated_signals new_signal.token
    else
      match aggregateCore live with
      | some agg => listSet s.aggregated_signals new_signal.token agg
      | none => s.aggregated_signals
  { signals := signals
    signal_cache := signal_cache
    aggregated_signals := aggregated_signals
    total_signals := total_signals
    high_priority := high_priority }

/-! ## Sample concrete values used by witnesses and counterexamples -/

/-- A concrete open position: entry price 1, size 1 SOL. -/
def samplePos : RealPosition :=
  { id := "pos_1"
    token := "$FOO"
    token_mint := "MINTFOO"
    entry_price := 1
    size_sol := 1
    token_amount := 1000
    current_price := 1
    market_cap := "$100K"
    pl_percent := 0
    pl_dollar := 0
    status := PositionStatus.active
    action_button := "MON"
    transaction_id := "tx1" }

/-- A successful swap result. -/
def sampleTrade : TradeResult :=
  { success := true, output_amount := 1000, transaction_id := "tx1", error := "" }

/-- A benign buy environment: price 1, swap succeeds, chain reports
balance 9 afterwards. -/
def sampleBuyEnv : BuyEnv :=
  { entry_price := some 1, trade := sampleTrade, balance_after := some 9 }

/-- A configured manager with no open positions and balance 10. -/
def basePM : PMState :=
  { positions := []
    wallet_balance := 10
    active_count := 0
    max_positions := 5
    position_counter := 1
    wallet_configured := true }

/-- A configured manager already holding the maximum of 5 positions. -/
def fullPM : PMState :=
  { positions := [("pos_1", samplePos), ("pos_2", samplePos), ("pos_3", samplePos),
                  ("pos_4", samplePos), ("pos_5", samplePos)]
    wallet_balance := 10
    active_count := 5
    max_positions := 5
    position_counter := 6
    wallet_configured := true }

/-- A risk-engine state with the emergency stop triggered and not yet
reset. -/
def emergencyRisk : RiskState :=
  { RiskState.init (-50) with
    emergency_stop_triggered := true
    emergency_stop_reasons := ["Portfolio risk critical"] }

/-- A sell environment whose swap succeeds and whose post-trade
wallet query reports 9.98 SOL. -/
def sampleSellEnv : SellEnv :=
  { trade := sampleTrade, balance_after := some (499/50) }

/-- A risk state where both the portfolio-risk condition (80 > 70)
and the exposure condition (95 > 90) hold simultaneously. -/
def bothCritRisk : RiskState :=
  { RiskState.init (-50) with portfolio_risk := 80, exposure_pct := 95 }

/-- A signal whose confidence 0.1 is far below the configured floor
`min_signal_confidence = 0.5`. -/
def lowConfSignal : TradingSignal :=
  { id := "SIG_0001"
    type := "SENTIMENT"
    token := "$FOO"
    token_mint := none
    source := "SOCIAL_SENTIMENT"
    direction := "bullish"
    strength := 1/2
    confidence := 1/10
    timeframe := "1h"
    created_at := 0 }

/-! ## Association-list helper lemmas -/

theorem lookup_listSet {α : Type} (l : List (String × α)) (k : String) (v : α) :
    lookup? (listSet l k v) k = some v := by
  unfold listSet
  by_cases h : (l.find? (fun p => p.1 == k)).isSome
  · simp only [h, if_true]
    induction l with
    | nil => simp at h
    | cons hd tl ih =>
      by_cases hk : hd.1 == k
      · simp [lookup?, List.find?, hk]
      · have hk' : (hd.1 == k) = false := by simpa using hk
        simp only [List.find?, hk'] at h
        simpa [lookup?, List.find?, hk'] using ih h
  · simp only [h, if_false]
    induction l with
    | nil => simp [lookup?, List.find?]
    | cons hd tl ih =>
      by_cases hk : hd.1 == k
      · simp [List.find?, hk] at h
      · have hk' : (hd.1 == k) = false := by simpa using hk
        simp only [List.find?, hk'] at h
        simpa [lookup?, List.find?, hk'] using ih h

theorem lookup_eraseKey {α : Type} (l : List (String × α)) (k : String) :
    lookup? (eraseKey l k) k = none := by
  unfold lookup? eraseKey
  rw [List.find?_eq_none.mpr]
  · rfl
  · intro x hx
    have := (List.mem_filter.mp hx).2
    simpa using this

theorem lookup_mapValues {α β : Type} (l : List (String × α)) (k : String)
    (f : α → β) :
    lookup? (l.map (fun q => (q.1, f q.2))) k = (lookup? l k).map f := by
  induction l with
  | nil => simp [lookup?]
  | cons hd tl ih =>
    by_cases hk : hd.1 == k
    · simp [lookup?, List.find?, hk]
    · simp only [List.map, lookup?, List.find?, hk]
      exact ih

/-! ## C1: dollar P/L after a price refresh -/

/--
C1 counterexample.  The claim states that after a price refresh the
absolute P/L equals `size × P&L%/100`.  At entry price 1, size 1 SOL,
refreshed price 2 and a fetched SOL price of 150, the code stores
`pl_dollar = 1 × (100/100) × 150 = 150`, not `1 × 100/100 = 1`.
-/
theorem C1_counterexample :
    (update_real_price { token_price := some 2, sol_price := some 150 } samplePos).pl_dollar ≠
      samplePos.size_sol *
        ((update_real_price { token_price := some 2, sol_price := some 150 } samplePos).pl_percent / 100) := by
  norm_num [update_real_price, effectiveSolPrice, samplePos]

/--
C1 amended: after a successful price refresh (`current_price > 0`) of
a position with positive entry price, the stored absolute P/L equals
`size × P&L%/100 × sol_price`, where `P&L% = (current − entry)/entry × 100`
and `sol_price` is the fetched SOL price when truthy, else the
fallback 150 — the spec's identity holds only up to this SOL-price
factor (the absolute P/L is denominated in dollars, the size in SOL).
-/
theorem C1_pl_dollar_eq (p : RealPosition) (env : PriceEnv) (cp : ℚ)
    (hfetch : env.token_price = some cp) (hcp : 0 < cp)
    (hentry : 0 < p.entry_price) :
    (update_real_price env p).pl_dollar =
      p.size_sol * ((update_real_price env p).pl_percent / 100) *
        effectiveSolPrice env.sol_price ∧
    (update_real_price env p).pl_percent =
      (cp - p.entry_price) / p.entry_price * 100 := by
  unfold update_real_price
  rw [hfetch]
  simp only [if_pos hcp]
  split_ifs <;> exact ⟨rfl, rfl⟩

/-- Witness for `C1_pl_dollar_eq` at the concrete counterexample
inputs. -/
theorem C1_pl_dollar_eq_witness :
    (update_real_price { token_price := some 2, sol_price := some 150 } samplePos).pl_dollar =
      samplePos.size_sol *
        ((update_real_price { token_price := some 2, sol_price := some 150 } samplePos).pl_percent / 100) *
        effectiveSolPrice (some 150) :=
  (C1_pl_dollar_eq samplePos { token_price := some 2, sol_price := some 150 } 2
    rfl (by norm_num) (by norm_num [samplePos])).1

/-! ## C9: −50% status threshold vs −30% exit threshold -/

/--
C9: a price refresh that leaves a position's P/L below −50% sets its
status to MONITORING (with the "SL" action button), and
`check_exit_conditions` independently lists any such position as a
STOP_LOSS candidate via the distinct −30% exit threshold.
-/
theorem C9_stop_loss_thresholds (p : RealPosition) (env : PriceEnv) (cp : ℚ)
    (s : PMState) (pid : String)
    (hfetch : env.token_price = some cp) (hcp : 0 < cp)
    (hpl : (update_real_price env p).pl_percent < -50)
    (hmem : (pid, update_real_price env p) ∈ s.positions) :
    (update_real_price env p).status = PositionStatus.monitoring ∧
    (update_real_price env p).action_button = "SL" ∧
    (ExitType.stop_loss, pid) ∈ check_exit_conditions s := by
  have hmem' : (ExitType.stop_loss, pid) ∈ check_exit_conditions s := by
    have h150 : ¬ (150 : ℚ) < (update_real_price env p).pl_percent := by linarith
    have h30 : (update_real_price env p).pl_percent < -30 := by linarith
    exact List.mem_filterMap.mpr
      ⟨(pid, update_real_price env p), hmem, by simp [check_exit_conditions, h150, h30]⟩
  refine ⟨?_, ?_, hmem'⟩ <;>
  · unfold update_real_price at hpl ⊢
    rw [hfetch] at hpl ⊢
    simp only [if_pos hcp] at hpl ⊢
    split_ifs at hpl ⊢ with h1 h2 h3
    all_goals simp_all
    all_goals linarith

/-- Witness for `C9_stop_loss_thresholds`: the spec's own scenario,
entry price 1.00, refreshed price 0.45, P/L −55%. -/
theorem C9_stop_loss_thresholds_witness :
    (update_real_price { token_price := some (45/100), sol_price := none } samplePos).status =
      PositionStatus.monitoring ∧
    (update_real_price { token_price := some (45/100), sol_price := none } samplePos).action_button = "SL" ∧
    (ExitType.stop_loss, "pos_1") ∈ check_exit_conditions
      { positions := [("pos_1",
          update_real_price { token_price := some (45/100), sol_price := none } samplePos)]
        wallet_balance := 10
        active_count := 1
        max_positions := 5
        position_counter := 2
        wallet_configured := true } :=
  C9_stop_loss_thresholds samplePos
    { token_price := some (45/100), sol_price := none } (45/100)
    _ "pos_1" rfl (by norm_num)
    (by norm_num [update_real_price, samplePos, effectiveSolPrice])
    (by simp)

/-! ## C7: capacity rejection is a no-op on the state -/

/--
C7: when the active-position count has reached the configured
maximum, `execute_buy_trade` rejects with the capacity error and
returns the state unchanged — positions, their fields and the balance
are exactly as before the call.
-/
theorem C7_capacity_rejection (s : PMState) (env : BuyEnv)
    (token_mint token_symbol market_cap : String) (sol_amount : ℚ)
    (hw : s.wallet_configured = true)
    (hcap : s.max_positions ≤ s.active_count) :
    execute_buy_trade s env token_mint token_symbol sol_amount market_cap =
      (BuyOutcome.maxPositionsReached, s) := by
  unfold execute_buy_trade
  simp [hw, hcap]

/-- Witness for `C7_capacity_rejection`: a 6th open attempt on a full
manager (max 5) is rejected and the five positions and balance are
untouched. -/
theorem C7_capacity_rejection_witness :
    execute_buy_trade fullPM sampleBuyEnv "MINTBAR" "$BAR" 1 "Unknown" =
      (BuyOutcome.maxPositionsReached, fullPM) :=
  C7_capacity_rejection fullPM sampleBuyEnv "MINTBAR" "$BAR" "Unknown" 1
    rfl (by norm_num [fullPM])

/-! ## C8: the insufficient-funds threshold -/

/--
C8 counterexample.  The claim states the funds check passes whenever
the requested size does not exceed the balance.  With balance 10 and
size 9 (9 ≤ 10) the code still rejects, because its check is
`sol_amount > wallet_balance * 0.8`.
-/
theorem C8_counterexample :
    (9 : ℚ) ≤ basePM.wallet_balance ∧
    execute_buy_trade basePM sampleBuyEnv "MINTBAR" "$BAR" 9 "Unknown" =
      (BuyOutcome.insufficientBalance, basePM) := by
  constructor
  · norm_num [basePM]
  · unfold execute_buy_trade
    norm_num [basePM]

/--
C8 amended: with the wallet configured and capacity available, an
open call is rejected with the insufficient-funds error exactly when
the requested size exceeds 80% of the available balance (not the full
balance); any size at most `0.8 × balance` passes the funds check.
-/
theorem C8_funds_check (s : PMState) (env : BuyEnv)
    (token_mint token_symbol market_cap : String) (sol_amount : ℚ)
    (hw : s.wallet_configured = true)
    (hcap : s.active_count < s.max_positions) :
    (execute_buy_trade s env token_mint token_symbol sol_amount market_cap).1 =
      BuyOutcome.insufficientBalance ↔
    s.wallet_balance * (8/10) < sol_amount := by
  unfold execute_buy_trade
  have hcap' : ¬ s.max_positions ≤ s.active_count := Nat.not_le.mpr hcap
  by_cases hbal : s.wallet_balance * (8/10) < sol_amount
  · simp [hw, hcap', hbal]
  · simp only [hw, Bool.true_eq_false, if_false, hcap', if_neg hbal, if_neg hcap']
    cases henv : env.entry_price with
    | none => simp [hbal]
    | some ep =>
      by_cases h0 : ep = 0
      · simp [h0, hbal]
      · by_cases hts : env.trade.success = false
        · simp [h0, hts, hbal]
        · simp [h0, hts, hbal]

/-- Witness for `C8_funds_check`: with balance 10, a request of 9 is
rejected as insufficient (9 > 8). -/
theorem C8_funds_check_witness :
    (execute_buy_trade basePM sampleBuyEnv "MINTBAR" "$BAR" 9 "Unknown").1 =
      BuyOutcome.insufficientBalance :=
  (C8_funds_check basePM sampleBuyEnv "MINTBAR" "$BAR" "Unknown" 9
    rfl (by norm_num [basePM])).mpr (by norm_num [basePM])

/-! ## C2: the emergency-stop flag does not gate `execute_buy_trade` -/

/--
C2 counterexample.  The claim states that while the emergency-stop
flag is set every `execute_buy_trade` call is rejected before any
external call.  With the flag set and an otherwise valid request, the
buy proceeds through the price fetch and the swap and opens a
position — `execute_buy_trade` never consults the flag (it is state
of the risk engine, which the position manager does not reference).
-/
theorem C2_counterexample :
    emergencyRisk.emergency_stop_triggered = true ∧
    (execute_buy_trade basePM sampleBuyEnv "MINTBAR" "$BAR" 1 "Unknown").1 =
      BuyOutcome.opened ("pos_" ++ toString basePM.position_counter)
        sampleBuyEnv.trade.transaction_id sampleBuyEnv.trade.output_amount := by
  refine ⟨rfl, ?_⟩
  unfold execute_buy_trade
  norm_num [basePM, sampleBuyEnv, sampleTrade]

/--
C2 amended: `execute_buy_trade` checks only its own guards (wallet
configured, capacity, the 80%-of-balance funds limit, price
availability, swap success) and is independent of the risk engine's
emergency-stop flag: for any risk-engine state with the flag set and
any request passing those guards, the buy reaches the external calls
and opens a position.  The only emergency responses in the code are
forced liquidation and the orchestrator disabling auto-trading.
-/
theorem C2_no_emergency_gate (rs : RiskState) (s : PMState) (env : BuyEnv)
    (token_mint token_symbol market_cap : String) (sol_amount ep : ℚ)
    (hflag : rs.emergency_stop_triggered = true)
    (hw : s.wallet_configured = true)
    (hcap : s.active_count < s.max_positions)
    (hbal : sol_amount ≤ s.wallet_balance * (8/10))
    (hep : env.entry_price = some ep) (hep0 : ep ≠ 0)
    (hts : env.trade.success = true) :
    (execute_buy_trade s env token_mint token_symbol sol_amount market_cap).1 =
      BuyOutcome.opened ("pos_" ++ toString s.position_counter)
        env.trade.transaction_id env.trade.output_amount := by
  unfold execute_buy_trade
  simp [hw, Nat.not_le.mpr hcap, not_lt.mpr hbal, hep, hep0, hts]

/-- Witness for `C2_no_emergency_gate` at the concrete
counterexample configuration. -/
theorem C2_no_emergency_gate_witness :
    emergencyRisk.emergency_stop_triggered = true ∧
    (execute_buy_trade basePM sampleBuyEnv "MINTBAR" "$BAR" 1 "Unknown").1 =
      BuyOutcome.opened ("pos_" ++ toString basePM.position_counter)
        sampleBuyEnv.trade.transaction_id sampleBuyEnv.trade.output_amount :=
  ⟨rfl, C2_no_emergency_gate emergencyRisk basePM sampleBuyEnv "MINTBAR" "$BAR"
    "Unknown" 1 1 rfl rfl (by norm_num [basePM]) (by norm_num [basePM])
    rfl (by norm_num) rfl⟩

/-! ## C6: open/close round trip -/

/--
C6 counterexample.  The claim states that opening with size S and
immediately fully closing at the same price restores the balance to
its pre-open value exactly.  In the code the manager never debits or
credits the balance itself: after each trade `update_wallet_balance`
re-reads the external wallet.  In a run where the wallet (realistically,
after fees) reports 9.98 SOL after the round trip, the realized P/L
is 0 but the final balance is 9.98 ≠ 10.
-/
theorem C6_counterexample :
    (execute_sell_trade
        (update_positions { token_price := some 1, sol_price := none }
          (execute_buy_trade basePM sampleBuyEnv "MINTBAR" "$BAR" 1 "Unknown").2)
        sampleSellEnv ("pos_" ++ toString basePM.position_counter) 100).1 =
      SellOutcome.sold 1000 (some 0) ∧
    (execute_sell_trade
        (update_positions { token_price := some 1, sol_price := none }
          (execute_buy_trade basePM sampleBuyEnv "MINTBAR" "$BAR" 1 "Unknown").2)
        sampleSellEnv ("pos_" ++ toString basePM.position_counter) 100).2.wallet_balance ≠
      basePM.wallet_balance := by
  have hbuy : (execute_buy_trade basePM sampleBuyEnv "MINTBAR" "$BAR" 1 "Unknown").2.positions =
      [("pos_" ++ toString basePM.position_counter,
        { id := "pos_" ++ toString basePM.position_counter
          token := "$BAR", token_mint := "MINTBAR", entry_price := 1, size_sol := 1
          token_amount := 1000, current_price := 1, market_cap := "Unknown"
          pl_percent := 0, pl_dollar := 0, status := PositionStatus.active
          action_button := "MON", transaction_id := "tx1" })] := by
    unfold execute_buy_trade
    norm_num [basePM, sampleBuyEnv, sampleTrade, listSet]
  constructor
  · unfold execute_sell_trade
    rw [update_positions]
    rw [hbuy]
    norm_num [lookup?, List.find?, update_real_price, effectiveSolPrice, sampleSellEnv,
      sampleTrade, ratTrunc]
  · unfold execute_sell_trade
    rw [update_positions]
    rw [hbuy]
    norm_num [lookup?, List.find?, update_real_price, effectiveSolPrice, sampleSellEnv,
      sampleTrade, ratTrunc, basePM, eraseKey]

/--
C6 amended: a round trip (open size S, refresh at the unchanged
entry price, fully close) yields realized P/L exactly 0; but the
manager does not restore the balance itself — after each trade the
balance is whatever the external wallet reports
(`update_wallet_balance`), so the final balance equals the wallet's
post-sell report, and the position is removed.  The pre-open balance
is recovered only when the external wallet reports it.
-/
theorem C6_round_trip (s0 : PMState) (envB : BuyEnv) (envP : PriceEnv)
    (envS : SellEnv) (token_mint token_symbol market_cap : String)
    (sol_amount ep : ℚ)
    (hw : s0.wallet_configured = true)
    (hcap : s0.active_count < s0.max_positions)
    (hbal : sol_amount ≤ s0.wallet_balance * (8/10))
    (hep : envB.entry_price = some ep) (hep0 : 0 < ep)
    (htb : envB.trade.success = true)
    (hpp : envP.token_price = some ep)
    (hts : envS.trade.success = true) :
    (execute_sell_trade
        (update_positions envP
          (execute_buy_trade s0 envB token_mint token_symbol sol_amount market_cap).2)
        envS ("pos_" ++ toString s0.position_counter) 100).1 =
      SellOutcome.sold envB.trade.output_amount (some 0) ∧
    (execute_sell_trade
        (update_positions envP
          (execute_buy_trade s0 envB token_mint token_symbol sol_amount market_cap).2)
        envS ("pos_" ++ toString s0.position_counter) 100).2.wallet_balance =
      envS.balance_after.getD (envB.balance_after.getD s0.wallet_balance) ∧
    lookup?
      (execute_sell_trade
        (update_positions envP
          (execute_buy_trade s0 envB token_mint token_symbol sol_amount market_cap).2)
        envS ("pos_" ++ toString s0.position_counter) 100).2.positions
      ("pos_" ++ toString s0.position_counter) = none := by
  set pid := "pos_" ++ toString s0.position_counter with hpid
  set pos0 : RealPosition :=
    { id := pid, token := token_symbol, token_mint := token_mint
      entry_price := ep, size_sol := sol_amount
      token_amount := envB.trade.output_amount, current_price := ep
      market_cap := market_cap, pl_percent := 0, pl_dollar := 0
      status := PositionStatus.active, action_button := "MON"
      transaction_id := envB.trade.transaction_id } with hpos0
  have hbuy : (execute_buy_trade s0 envB token_mint token_symbol sol_amount market_cap).2 =
      { s0 with positions := listSet s0.positions pid pos0
                active_count := (listSet s0.positions pid pos0).length
                position_counter := s0.position_counter + 1
                wallet_balance := envB.balance_after.getD s0.wallet_balance } := by
    unfold execute_buy_trade
    simp [hw, Nat.not_le.mpr hcap, not_lt.mpr hbal, hep, ne_of_gt hep0, htb, hpos0]
  have hupd : update_real_price envP pos0 =
      { pos0 with current_price := ep, pl_percent := 0, pl_dollar := 0
                  action_button := "MON", status := PositionStatus.monitoring } := by
    unfold update_real_price
    rw [hpp]
    simp only [if_pos hep0]
    norm_num
  have hlook : lookup?
      ((listSet s0.positions pid pos0).map
        (fun q => (q.1, update_real_price envP q.2))) pid =
      some (update_real_price envP pos0) := by
    rw [lookup_mapValues, lookup_listSet]
    rfl
  rw [hbuy]
  unfold execute_sell_trade
  rw [update_positions]
  simp only [hlook, hupd]
  have htrunc : ∀ z : ℤ, ratTrunc (z : ℚ) = z := by
    intro z
    unfold ratTrunc
    split_ifs <;> simp
  simp [hts, htrunc, lookup_eraseKey]

/-- Witness for `C6_round_trip` at the concrete counterexample
configuration (external wallet reporting 9, then 9.98). -/
theorem C6_round_trip_witness :
    (execute_sell_trade
        (update_positions { token_price := some 1, sol_price := none }
          (execute_buy_trade basePM sampleBuyEnv "MINTBAR" "$BAR" 1 "Unknown").2)
        sampleSellEnv ("pos_" ++ toString basePM.position_counter) 100).1 =
      SellOutcome.sold sampleBuyEnv.trade.output_amount (some 0) ∧
    (execute_sell_trade
        (update_positions { token_price := some 1, sol_price := none }
          (execute_buy_trade basePM sampleBuyEnv "MINTBAR" "$BAR" 1 "Unknown").2)
        sampleSellEnv ("pos_" ++ toString basePM.position_counter) 100).2.wallet_balance =
      sampleSellEnv.balance_after.getD (sampleBuyEnv.balance_after.getD basePM.wallet_balance) := by
  have h := C6_round_trip basePM sampleBuyEnv
    { token_price := some 1, sol_price := none } sampleSellEnv
    "MINTBAR" "$BAR" "Unknown" 1 1
    rfl (by norm_num [basePM]) (by norm_num [basePM]) rfl (by norm_num)
    rfl rfl rfl
  exact ⟨h.1, h.2.1⟩

/-! ## C5: emergency-exit condition ordering -/

/--
C5 counterexample.  The claim states that when several emergency
conditions match, the returned reason/severity are those of the first
matching condition.  In a state where both the portfolio-risk
condition (80 > 70, condition (a)) and the exposure condition
(95 > 90, condition (b)) hold, the returned reason is condition (b)'s
exposure reason, not condition (a)'s — each later `if` overwrites the
result record.
-/
theorem C5_counterexample :
    bothCritRisk.thr_max_risk_level < bothCritRisk.portfolio_risk ∧
    bothCritRisk.thr_max_exposure < bothCritRisk.exposure_pct ∧
    (check_emergency_exit_conditions bothCritRisk).1.reason =
      some (EmergencyReason.portfolioExposureCritical 95) ∧
    (check_emergency_exit_conditions bothCritRisk).1.reason ≠
      some (EmergencyReason.portfolioRiskCritical 80) := by
  refine ⟨by norm_num [bothCritRisk, RiskState.init],
    by norm_num [bothCritRisk, RiskState.init], ?_, ?_⟩ <;>
  · unfold check_emergency_exit_conditions
    norm_num [bothCritRisk, RiskState.init, avgVolatility]
    try decide

/--
C5 amended: `check_emergency_exit_conditions` evaluates its
conditions in the order (a) portfolio risk > critical threshold,
(b) exposure > critical threshold, (c) P/L relative to balance below
the drawdown threshold, (d) average volatility > 80 (plus a fifth,
normally inactive, rapid-decline check (e)), but each check
overwrites the result record, so when several conditions match the
returned reason and severity are those of the LAST matching
condition; condition (d) carries severity HIGH, the others CRITICAL.
-/
theorem C5_last_match_wins (s : RiskState) :
    (∀ d, s.rapid_value_decline = some d → s.thr_rapid_value_decline < d →
      (check_emergency_exit_conditions s).1.reason =
        some (EmergencyReason.rapidPortfolioDecline d) ∧
      (check_emergency_exit_conditions s).1.severity = "CRITICAL") ∧
    (rapidDeclineCond s = false → 80 < avgVolatility s →
      (check_emergency_exit_conditions s).1.reason =
        some (EmergencyReason.extremeMarketVolatility (avgVolatility s)) ∧
      (check_emergency_exit_conditions s).1.severity = "HIGH") ∧
    (rapidDeclineCond s = false → ¬ 80 < avgVolatility s →
      ∀ pm, s.position_manager = some pm → 0 < pm.wallet_balance →
        pm_total_pl pm / pm.wallet_balance * 100 < s.thr_portfolio_drawdown →
        (check_emergency_exit_conditions s).1.reason =
          some (EmergencyReason.criticalPortfolioDrawdown
            (pm_total_pl pm / pm.wallet_balance * 100)) ∧
        (check_emergency_exit_conditions s).1.severity = "CRITICAL") ∧
    (rapidDeclineCond s = false → ¬ 80 < avgVolatility s → drawdownCond s = false →
      s.thr_max_exposure < s.exposure_pct →
      (check_emergency_exit_conditions s).1.reason =
        some (EmergencyReason.portfolioExposureCritical s.exposure_pct) ∧
      (check_emergency_exit_conditions s).1.severity = "CRITICAL") ∧
    (rapidDeclineCond s = false → ¬ 80 < avgVolatility s → drawdownCond s = false →
      ¬ s.thr_max_exposure < s.exposure_pct → s.thr_max_risk_level < s.portfolio_risk →
      (check_emergency_exit_conditions s).1.reason =
        some (EmergencyReason.portfolioRiskCritical s.portfolio_risk) ∧
      (check_emergency_exit_conditions s).1.severity = "CRITICAL") := by
  unfold check_emergency_exit_conditions
  refine ⟨?_, ?_, ?_, ?_, ?_⟩
  · intro d hd hlt
    simp only [hd]
    simp [hlt]
  · intro hrd hvol
    unfold rapidDeclineCond at hrd
    rcases h : s.rapid_value_decline with _ | d
    · simp [h, hvol]
    · rw [h] at hrd
      simp only [h]
      simp at hrd
      simp [if_neg (not_lt.mpr hrd), hvol]
  · intro hrd hvol pm hpm hwb hdd
    unfold rapidDeclineCond at hrd
    rcases h : s.rapid_value_decline with _ | d
    · simp [h, hvol, hpm, hwb, hdd]
    · rw [h] at hrd
      simp at hrd
      simp [h, if_neg (not_lt.mpr hrd), hvol, hpm, hwb, hdd]
  · intro hrd hvol hdd hexp
    unfold rapidDeclineCond at hrd
    unfold drawdownCond at hdd
    rcases h : s.rapid_value_decline with _ | d <;>
    rcases hp : s.position_manager with _ | pm
    · simp [h, hp, hvol, hexp]
    · rw [hp] at hdd
      simp only [Bool.and_eq_false_iff, decide_eq_false_iff_not, not_lt] at hdd
      rcases hdd with hdd | hdd
      · simp [h, hp, hvol, hexp, if_neg (not_lt.mpr hdd)]
      · by_cases hwb : 0 < pm.wallet_balance
        · simp [h, hp, hvol, hexp, hwb, if_neg (not_lt.mpr hdd)]
        · simp [h, hp, hvol, hexp, hwb]
    · rw [h] at hrd
      simp at hrd
      simp [h, hp, if_neg (not_lt.mpr hrd), hvol, hexp]
    · rw [h] at hrd
      rw [hp] at hdd
      simp at hrd
      simp only [Bool.and_eq_false_iff, decide_eq_false_iff_not, not_lt] at hdd
      rcases hdd with hdd | hdd
      · simp [h, hp, if_neg (not_lt.mpr hrd), hvol, hexp, if_neg (not_lt.mpr hdd)]
      · by_cases hwb : 0 < pm.wallet_balance
        · simp [h, hp, if_neg (not_lt.mpr hrd), hvol, hexp, hwb, if_neg (not_lt.mpr hdd)]
        · simp [h, hp, if_neg (not_lt.mpr hrd), hvol, hexp, hwb]
  · intro hrd hvol hdd hexp hrisk
    unfold rapidDeclineCond at hrd
    unfold drawdownCond at hdd
    rcases h : s.rapid_value_decline with _ | d <;>
    rcases hp : s.position_manager with _ | pm
    · simp [h, hp, hvol, hexp, hrisk]
    · rw [hp] at hdd
      simp only [Bool.and_eq_false_iff, decide_eq_false_iff_not, not_lt] at hdd
      rcases hdd with hdd | hdd
      · simp [h, hp, hvol, hexp, hrisk, if_neg (not_lt.mpr hdd)]
      · by_cases hwb : 0 < pm.wallet_balance
        · simp [h, hp, hvol, hexp, hrisk, hwb, if_neg (not_lt.mpr hdd)]
        · simp [h, hp, hvol, hexp, hrisk, hwb]
    · rw [h] at hrd
      simp at hrd
      simp [h, hp, if_neg (not_lt.mpr hrd), hvol, hexp, hrisk]
    · rw [h] at hrd
      rw [hp] at hdd
      simp at hrd
      simp only [Bool.and_eq_false_iff, decide_eq_false_iff_not, not_lt] at hdd
      rcases hdd with hdd | hdd
      · simp [h, hp, if_neg (not_lt.mpr hrd), hvol, hexp, hrisk, if_neg (not_lt.mpr hdd)]
      · by_cases hwb : 0 < pm.wallet_balance
        · simp [h, hp, if_neg (not_lt.mpr hrd), hvol, hexp, hrisk, hwb, if_neg (not_lt.mpr hdd)]
        · simp [h, hp, if_neg (not_lt.mpr hrd), hvol, hexp, hrisk, hwb]

/-- Witness for `C5_last_match_wins`: in the concrete state where
conditions (a) and (b) both hold, the exposure reason is returned. -/
theorem C5_last_match_wins_witness :
    (check_emergency_exit_conditions bothCritRisk).1.reason =
      some (EmergencyReason.portfolioExposureCritical bothCritRisk.exposure_pct) :=
  ((C5_last_match_wins bothCritRisk).2.2.2.1
    rfl
    (by norm_num [avgVolatility, bothCritRisk, RiskState.init])
    rfl
    (by norm_num [bothCritRisk, RiskState.init])).1

/-! ## C10: token-risk score bounds -/

/--
C10: for every token-metrics input — any liquidity, market cap
(including missing or unparsable), holder count, volatility and age —
`evaluate_token_risk` returns a score between the built-in base risk
0.3 and 1.0; no combination of favourable metrics goes below 0.3.
-/
theorem C10_token_risk_bounds (s : RiskState) (t : TokenMetrics) :
    3/10 ≤ evaluate_token_risk s t ∧ evaluate_token_risk s t ≤ 1 := by
  have hliq : (0:ℚ) ≤ if t.liquidity.getD 0 < 5000 then (3/10:ℚ)
      else if t.liquidity.getD 0 < 10000 then 2/10 else 0 := by
    split_ifs <;> norm_num
  have hmc : (0:ℚ) ≤ mcPenalty t.market_cap := by
    unfold mcPenalty
    rcases mcValue? t.market_cap with _ | v
    · norm_num
    · dsimp only
      split_ifs <;> norm_num
  have hhold : (0:ℚ) ≤ if t.holders.getD 100 < 50 then (15/100:ℚ)
      else if t.holders.getD 100 < 200 then 1/10 else 0 := by
    split_ifs <;> norm_num
  have hvol : (0:ℚ) ≤ if 60 < effVolatility s t then (25/100:ℚ)
      else if 40 < effVolatility s t then 15/100 else 0 := by
    split_ifs <;> norm_num
  have hage : (0:ℚ) ≤ if t.age_days.getD 30 < 7 then (25/100:ℚ)
      else if t.age_days.getD 30 < 30 then 15/100 else 0 := by
    split_ifs <;> norm_num
  unfold evaluate_token_risk
  refine ⟨le_min (by norm_num) (by linarith), min_le_left _ _⟩

/-! ## C3: no validation at signal ingest -/

/--
C3 counterexample.  The claim states that a signal with confidence
below the 0.5 floor is not added to the pool and never contributes to
aggregation.  Processing a signal with confidence 0.1 from the
initial state puts it in the pool and produces an aggregated signal
for its token computed from that very signal (signal count 1,
confidence 0.8, recommendation BUY).
-/
theorem C3_counterexample :
    lowConfSignal.confidence < 1/2 ∧
    lowConfSignal ∈ (process_signal AggState.init lowConfSignal 0).signals ∧
    lookup? (process_signal AggState.init lowConfSignal 0).aggregated_signals "$FOO" =
      some { direction := "bullish", strength := 1, confidence := 4/5,
             signal_count := 1, weighted_score := 1, recommendation := "BUY" } := by
  have hdir : hasDirection "bullish" lowConfSignal = true := by decide
  have hbear : hasDirection "bearish" lowConfSignal = false := by decide
  have hneut : isNeutralDir lowConfSignal = false := by decide
  have hnew : ({ lowConfSignal with created_at := (0:ℚ) } : TradingSignal) = lowConfSignal := rfl
  have hA : ("NEURAL_ANALYZER" == "SOCIAL_SENTIMENT") = false := by decide
  have hB : ("WHALE_TRACKER" == "SOCIAL_SENTIMENT") = false := by decide
  have hw : signalWeight lowConfSignal = 13/400 := by
    unfold signalWeight lookupD lookup? signal_sources
    norm_num [List.find?, lowConfSignal, hA, hB]
  have hagg : aggregateCore [lowConfSignal] = some
      { direction := "bullish", strength := 1, confidence := 4/5,
        signal_count := 1, weighted_score := 1, recommendation := "BUY" } := by
    unfold aggregateCore
    rw [List.filter_cons, List.filter_cons, List.filter_cons]
    rw [hdir, hbear, hneut]
    have hmax : max (13/400 : ℚ) 0 = 13/400 := max_eq_left (by norm_num)
    norm_num [hw, hmax, generate_recommendation]
  have hlive : liveSignals 0 [lowConfSignal] "$FOO" = [lowConfSignal] := by
    unfold liveSignals
    rw [List.filter_cons]
    norm_num [lowConfSignal]
  refine ⟨by norm_num [lowConfSignal], ?_, ?_⟩
  · unfold process_signal
    norm_num [AggState.init, hnew]
  · have htok : lowConfSignal.token = "$FOO" := rfl
    unfold process_signal
    simp only [AggState.init, List.nil_append, hnew]
    simp only [htok]
    norm_num
    rw [hlive, hagg]
    norm_num [lookup_listSet]

/--
C3 amended: `process_signal` performs no validation at all — every
signal, regardless of its confidence or strength (out-of-range or
below the `min_signal_confidence` floor), is appended to the signal
pool and to its token's cache and triggers aggregation for that
token.  The 0.5 floor is applied only when reading signals out
(`get_trading_signals` skips low-confidence aggregates for display).
-/
theorem C3_ingest_unconditional (s : AggState) (sig : TradingSignal) (now : ℚ)
    (hlen : s.signals.length < 100) :
    { sig with created_at := now } ∈ (process_signal s sig now).signals ∧
    { sig with created_at := now } ∈
      lookupD (process_signal s sig now).signal_cache sig.token [] := by
  unfold process_signal
  constructor
  · have hnotrim : ¬ 100 < (s.signals ++ [{ sig with created_at := now }]).length := by
      simp only [List.length_append, List.length_cons, List.length_nil]
      omega
    simp only [hnotrim, if_false]
    exact List.mem_append_right _ (List.mem_singleton.mpr rfl)
  · rw [lookupD]
    rw [lookup_listSet]
    simp only [Option.getD_some]
    by_cases htrim : 20 < ((lookupD s.signal_cache sig.token []) ++
        [{ sig with created_at := now }]).length
    · simp only [htrim, if_true]
      unfold takeLast
      set l := lookupD s.signal_cache sig.token [] with hl
      have hle : (l ++ [{ sig with created_at := now }]).length - 20 ≤ l.length := by
        simp only [List.length_append, List.length_cons, List.length_nil]
        omega
      rw [List.drop_append_of_le_length hle]
      exact List.mem_append_right _ (List.mem_singleton.mpr rfl)
    · simp only [htrim, if_false]
      exact List.mem_append_right _ (List.mem_singleton.mpr rfl)

/-- Witness for `C3_ingest_unconditional` at the below-floor signal
and the initial state. -/
theorem C3_ingest_unconditional_witness :
    lowConfSignal ∈ (process_signal AggState.init lowConfSignal 0).signals ∧
    lowConfSignal ∈
      lookupD (process_signal AggState.init lowConfSignal 0).signal_cache
        lowConfSignal.token [] := by
  have h := C3_ingest_unconditional AggState.init lowConfSignal 0
    (by norm_num [AggState.init])
  have heq : { lowConfSignal with created_at := 0 } = lowConfSignal := rfl
  rw [heq] at h
  exact h

/-! ## C4: aggregated confidence and strength stay in [0,1] -/

/-- Every source-reliability weight, including the 0.5 default for
unknown sources, is nonnegative. -/
theorem source_weight_nonneg (src : String) :
    0 ≤ lookupD signal_sources src (1/2) := by
  unfold lookupD lookup?
  cases hf : signal_sources.find? (fun p => p.1 == src) with
  | none => norm_num
  | some p =>
    have hp := List.mem_of_find?_eq_some hf
    simp only [Option.map_some', Option.getD_some]
    simp only [signal_sources, List.mem_cons, List.not_mem_nil, or_false] at hp
    rcases hp with rfl|rfl|rfl|rfl|rfl|rfl|rfl|rfl|rfl|rfl <;> norm_num

/-- The summed weight of any list of signals with nonnegative
strength and confidence is nonnegative. -/
theorem weightSum_nonneg (l : List TradingSignal)
    (h : ∀ s ∈ l, 0 ≤ s.strength ∧ 0 ≤ s.confidence) :
    0 ≤ (l.map signalWeight).sum := by
  apply List.sum_nonneg
  intro x hx
  rcases List.mem_map.mp hx with ⟨s, hs, rfl⟩
  obtain ⟨h1, h2⟩ := h s hs
  unfold signalWeight
  exact mul_nonneg (mul_nonneg (source_weight_nonneg s.source) h2) h1

/-- Bounds for the strength formula
`|net| * 0.7 + max(bull, bear)/total * 0.3` over nonnegative direction
buckets with positive total. -/
theorem strength_formula_bounds (B R N : ℚ) (hB : 0 ≤ B) (hR : 0 ≤ R)
    (hN : 0 ≤ N) (hT : 0 < B + R + N) :
    0 ≤ |(B - R) / (B + R + N)| * (7/10) + max B R / (B + R + N) * (3/10) ∧
    |(B - R) / (B + R + N)| * (7/10) + max B R / (B + R + N) * (3/10) ≤ 1 := by
  have habs : |(B - R) / (B + R + N)| ≤ 1 := by
    rw [abs_div, abs_of_pos hT]
    rw [div_le_one hT]
    have : |B - R| ≤ B + R := abs_le.mpr ⟨by linarith, by linarith⟩
    linarith
  have habs0 : 0 ≤ |(B - R) / (B + R + N)| := abs_nonneg _
  have hmax0 : 0 ≤ max B R / (B + R + N) :=
    div_nonneg (le_max_of_le_left hB) (le_of_lt hT)
  have hmax1 : max B R / (B + R + N) ≤ 1 := by
    rw [div_le_one hT]
    exact max_le (by linarith) (by linarith)
  constructor
  · have := mul_nonneg habs0 (by norm_num : (0:ℚ) ≤ 7/10)
    have := mul_nonneg hmax0 (by norm_num : (0:ℚ) ≤ 3/10)
    linarith
  · nlinarith

/-- Bounds for the agreement-based base confidence over direction
counts bounded by the signal count. -/
theorem confidence0_bounds (bc brc m : ℕ) (hm : 0 < m) (hbc : bc ≤ m)
    (hbrc : brc ≤ m) :
    0 ≤ (if brc * 2 < bc then (7/10 : ℚ) + 3/10 * ((bc : ℚ) / (m : ℚ))
      else if bc * 2 < brc then (7/10 : ℚ) + 3/10 * ((brc : ℚ) / (m : ℚ))
      else (1/2 : ℚ) + 1/5 * ((max bc brc : ℚ) / (m : ℚ))) ∧
    (if brc * 2 < bc then (7/10 : ℚ) + 3/10 * ((bc : ℚ) / (m : ℚ))
      else if bc * 2 < brc then (7/10 : ℚ) + 3/10 * ((brc : ℚ) / (m : ℚ))
      else (1/2 : ℚ) + 1/5 * ((max bc brc : ℚ) / (m : ℚ))) ≤ 1 := by
  have hmq : (0:ℚ) < (m : ℚ) := by exact_mod_cast hm
  have hbcq : (bc : ℚ) ≤ (m : ℚ) := by exact_mod_cast hbc
  have hbrcq : (brc : ℚ) ≤ (m : ℚ) := by exact_mod_cast hbrc
  have hbc0 : (0:ℚ) ≤ (bc : ℚ) := by positivity
  have hbrc0 : (0:ℚ) ≤ (brc : ℚ) := by positivity
  have hmaxq : max (bc : ℚ) (brc : ℚ) ≤ (m : ℚ) := max_le hbcq hbrcq
  have hmax0 : (0:ℚ) ≤ max (bc : ℚ) (brc : ℚ) := le_max_of_le_left hbc0
  split_ifs with h1 h2
  · have r0 : 0 ≤ (bc : ℚ) / (m : ℚ) := div_nonneg hbc0 (le_of_lt hmq)
    have r1 : (bc : ℚ) / (m : ℚ) ≤ 1 := (div_le_one hmq).mpr hbcq
    constructor <;> linarith
  · have r0 : 0 ≤ (brc : ℚ) / (m : ℚ) := div_nonneg hbrc0 (le_of_lt hmq)
    have r1 : (brc : ℚ) / (m : ℚ) ≤ 1 := (div_le_one hmq).mpr hbrcq
    constructor <;> linarith
  · have r0 : 0 ≤ max (bc : ℚ) (brc : ℚ) / (m : ℚ) := div_nonneg hmax0 (le_of_lt hmq)
    have r1 : max (bc : ℚ) (brc : ℚ) / (m : ℚ) ≤ 1 := (div_le_one hmq).mpr hmaxq
    constructor <;> linarith

/--
C4: for every non-empty set of live (non-expired) signals of a token
whose strengths and confidences lie in [0,1] (the data-model ranges),
whenever the recomputation produces an `AggregatedSignal`, its
confidence and strength are both in [0,1], for any combination of
directions and sources.
-/
theorem C4_aggregate_bounds (now : ℚ) (pool : List TradingSignal)
    (token : String) (a : AggValues)
    (hvalid : ∀ s ∈ pool, 0 ≤ s.strength ∧ s.strength ≤ 1 ∧
      0 ≤ s.confidence ∧ s.confidence ≤ 1)
    (hres : aggregate_signals_for_token now pool token = some a) :
    0 ≤ a.confidence ∧ a.confidence ≤ 1 ∧ 0 ≤ a.strength ∧ a.strength ≤ 1 := by
  unfold aggregate_signals_for_token at hres
  set sigs := liveSignals now pool token with hsigs
  have hsub : ∀ s ∈ sigs, 0 ≤ s.strength ∧ 0 ≤ s.confidence := by
    intro s hs
    have hmem : s ∈ pool := by
      rw [hsigs] at hs
      exact List.mem_of_mem_filter hs
    obtain ⟨u1, _, u2, _⟩ := hvalid s hmem
    exact ⟨u1, u2⟩
  unfold aggregateCore at hres
  by_cases hemp : sigs.isEmpty
  · simp [hemp] at hres
  simp only [hemp, if_false, Bool.false_eq_true] at hres
  set B := ((sigs.filter (hasDirection "bullish")).map signalWeight).sum with hBdef
  set R := ((sigs.filter (hasDirection "bearish")).map signalWeight).sum with hRdef
  set N := ((sigs.filter isNeutralDir).map signalWeight).sum with hNdef
  have hBnn : 0 ≤ B := by
    rw [hBdef]
    exact weightSum_nonneg _ (fun s hs => hsub s (List.mem_of_mem_filter hs))
  have hRnn : 0 ≤ R := by
    rw [hRdef]
    exact weightSum_nonneg _ (fun s hs => hsub s (List.mem_of_mem_filter hs))
  have hNnn : 0 ≤ N := by
    rw [hNdef]
    exact weightSum_nonneg _ (fun s hs => hsub s (List.mem_of_mem_filter hs))
  by_cases hT0 : B + R + N = 0
  · simp [hT0] at hres
  simp only [hT0, if_false] at hres
  have hTpos : 0 < B + R + N := lt_of_le_of_ne (by linarith) (Ne.symm hT0)
  have hstr := strength_formula_bounds B R N hBnn hRnn hNnn hTpos
  have hm : 0 < max 1 sigs.length := lt_of_lt_of_le Nat.one_pos (le_max_left _ _)
  have hbc : (sigs.filter (hasDirection "bullish")).length ≤ max 1 sigs.length :=
    le_trans (List.length_filter_le _ _) (le_max_right _ _)
  have hbrc : (sigs.filter (hasDirection "bearish")).length ≤ max 1 sigs.length :=
    le_trans (List.length_filter_le _ _) (le_max_right _ _)
  have hconf0 := confidence0_bounds (sigs.filter (hasDirection "bullish")).length
    (sigs.filter (hasDirection "bearish")).length (max 1 sigs.length) hm hbc hbrc
  rw [Option.some.injEq] at hres
  subst hres
  set c0 : ℚ := (if (sigs.filter (hasDirection "bearish")).length * 2 <
        (sigs.filter (hasDirection "bullish")).length then
      (7/10 : ℚ) + 3/10 * (((sigs.filter (hasDirection "bullish")).length : ℚ) /
        ((max 1 sigs.length : ℕ) : ℚ))
    else if (sigs.filter (hasDirection "bullish")).length * 2 <
        (sigs.filter (hasDirection "bearish")).length then
      (7/10 : ℚ) + 3/10 * (((sigs.filter (hasDirection "bearish")).length : ℚ) /
        ((max 1 sigs.length : ℕ) : ℚ))
    else (1/2 : ℚ) + 1/5 * (max ((sigs.filter (hasDirection "bullish")).length : ℚ)
        ((sigs.filter (hasDirection "bearish")).length : ℚ) /
        ((max 1 sigs.length : ℕ) : ℚ))) with hc0
  have u0 : 0 ≤ c0 := hconf0.1
  have u1 : c0 ≤ 1 := hconf0.2
  refine ⟨?_, ?_, hstr.1, hstr.2⟩
  · show 0 ≤ if sigs.length = 1 then c0 * (8/10)
      else if 3 ≤ sigs.length then min (95/100) (c0 * (11/10)) else c0
    split_ifs with hl1 hl3
    · linarith
    · exact le_min (by norm_num) (by linarith)
    · exact u0
  · show (if sigs.length = 1 then c0 * (8/10)
      else if 3 ≤ sigs.length then min (95/100) (c0 * (11/10)) else c0) ≤ 1
    split_ifs with hl1 hl3
    · linarith
    · exact le_trans (min_le_left _ _) (by norm_num)
    · exact u1

/-- Witness for `C4_aggregate_bounds`: the single-signal pool of
`lowConfSignal` aggregates to confidence 0.8 and strength 1, both in
[0,1]. -/
theorem C4_aggregate_bounds_witness :
    0 ≤ ({ direction := "bullish", strength := 1, confidence := 4/5,
           signal_count := 1, weighted_score := 1,
           recommendation := "BUY" } : AggValues).confidence ∧
    ({ direction := "bullish", strength := 1, confidence := 4/5,
       signal_count := 1, weighted_score := 1,
       recommendation := "BUY" } : AggValues).confidence ≤ 1 ∧
    0 ≤ ({ direction := "bullish", strength := 1, confidence := 4/5,
           signal_count := 1, weighted_score := 1,
           recommendation := "BUY" } : AggValues).strength ∧
    ({ direction := "bullish", strength := 1, confidence := 4/5,
       signal_count := 1, weighted_score := 1,
       recommendation := "BUY" } : AggValues).strength ≤ 1 := by
  have hdir : hasDirection "bullish" lowConfSignal = true := by decide
  have hbear : hasDirection "bearish" lowConfSignal = false := by decide
  have hneut : isNeutralDir lowConfSignal = false := by decide
  have hA : ("NEURAL_ANALYZER" == "SOCIAL_SENTIMENT") = false := by decide
  have hB : ("WHALE_TRACKER" == "SOCIAL_SENTIMENT") = false := by decide
  have hw : signalWeight lowConfSignal = 13/400 := by
    unfold signalWeight lookupD lookup? signal_sources
    norm_num [List.find?, lowConfSignal, hA, hB]
  have hagg : aggregateCore [lowConfSignal] = some
      { direction := "bullish", strength := 1, confidence := 4/5,
        signal_count := 1, weighted_score := 1, recommendation := "BUY" } := by
    unfold aggregateCore
    rw [List.filter_cons, List.filter_cons, List.filter_cons]
    rw [hdir, hbear, hneut]
    have hmax : max (13/400 : ℚ) 0 = 13/400 := max_eq_left (by norm_num)
    norm_num [hw, hmax, generate_recommendation]
  have hlive : liveSignals 0 [lowConfSignal] "$FOO" = [lowConfSignal] := by
    unfold liveSignals
    rw [List.filter_cons]
    norm_num [lowConfSignal]
  exact C4_aggregate_bounds 0 [lowConfSignal] "$FOO" _
    (by
      intro s hs
      rw [List.mem_singleton] at hs
      subst hs
      norm_num [lowConfSignal])
    (by
      unfold aggregate_signals_for_token
      rw [hlive, hagg])

end QuantBot
